import Mathlib

/-!
Verification of the mix-scheduler-admission-webhook repository.

The repository is a Kubernetes mutating admission webhook written in Go.
This file gives a shallow embedding of its decision logic:

* `pkg/webhook/server/app.go` — the Deployment/StatefulSet handler with
  label-based weight resolution (`resolveWeights`, `handleTemplateApp`,
  `FillAffinityApp`).
* `pkg/webhook/server/server.go` — the handler variant with the informer
  backed cluster reads and the Pod create/delete floor logic
  (`handlePodServer`, `handleTemplateServer`, `handleMutateServer`,
  `FillAffinityServer`).
* the read helpers (`ListNode`, `ListPod`, `GetNode`, namespace get,
  `PodReady`, `podExistAndReadyOnNodeCapacityNum`, `nodeCapacity`).

Go maps are modelled as association lists with first-match lookup, Go nil
slices and nil pointers as `Option`, `strconv.Atoi` as `goAtoi`, and the
`int32(...)` conversion as `int32ofInt`. A Go nil-pointer dereference is
modelled by an `Option` result of the handler (`none` = crash). Fields of
the Kubernetes API types that the webhook never reads or writes are
omitted from the model.
-/

namespace MixScheduler

/-- Go `map[string]string`, as an association list with first-match lookup. -/
abbrev Labels := List (String × String)

/-- Lookup in a Go string map: `v, ok := m[k]` gives `some v` when present. -/
def lookupLabel (m : Labels) (k : String) : Option String :=
  match m with
  | [] => none
  | p :: rest => if p.1 == k then some p.2 else lookupLabel rest k

/-- Go map assignment `m[k] = v`: replace the binding when present, else add it. -/
def mapSet (m : Labels) (k v : String) : Labels :=
  match m with
  | [] => [(k, v)]
  | p :: rest => if p.1 == k then (k, v) :: rest else p :: mapSet rest k v

/-- Truncating conversion `int32(n)` of Go, on mathematical integers. -/
def int32ofInt (n : Int) : Int :=
  let m := n % 4294967296
  if m < 2147483648 then m else m - 4294967296

/-- `strconv.Atoi`: optional sign, at least one digit, all digits, 64-bit range;
anything else (including overflow) is an error, here `none`. -/
def goAtoi (s : String) : Option Int :=
  let core : Bool → List Char → Option Int := fun neg ds =>
    if ds.isEmpty || !(ds.all Char.isDigit) then none
    else
      let n : Nat := ds.foldl (fun a c => a * 10 + (c.toNat - 48)) 0
      let v : Int := if neg then -(n : Int) else (n : Int)
      if -9223372036854775808 ≤ v && v ≤ 9223372036854775807 then some v else none
  match s.data with
  | '-' :: rest => core true rest
  | '+' :: rest => core false rest
  | ds => core false ds

/-! ## The affinity data model (the subset of the k8s corev1 types the webhook touches) -/

/-- corev1.NodeSelectorRequirement (key, operator, values). -/
structure NodeSelectorRequirement where
  key : String
  op : String
  values : List String
deriving DecidableEq, Repr

/-- corev1.NodeSelectorTerm (only MatchExpressions is ever used). -/
structure NodeSelectorTerm where
  matchExpressions : List NodeSelectorRequirement
deriving DecidableEq, Repr

/-- corev1.PreferredSchedulingTerm. -/
structure PreferredSchedulingTerm where
  weight : Int
  preference : NodeSelectorTerm
deriving DecidableEq, Repr

/-- metav1.LabelSelector, carried opaquely through the webhook. -/
structure LabelSelector where
  matchLabels : Labels
deriving DecidableEq, Repr

/-- corev1.PodAffinityTerm (topology key and label selector). -/
structure PodAffinityTerm where
  topologyKey : String
  labelSelector : Option LabelSelector
deriving DecidableEq, Repr

/-- corev1.WeightedPodAffinityTerm. -/
structure WeightedPodAffinityTerm where
  weight : Int
  podAffinityTerm : PodAffinityTerm
deriving DecidableEq, Repr

/-- corev1.NodeAffinity; Go nil slices and the nil *NodeSelector pointer are `none`.
The required field models RequiredDuringSchedulingIgnoredDuringExecution.NodeSelectorTerms. -/
structure NodeAffinity where
  required : Option (List NodeSelectorTerm)
  preferred : Option (List PreferredSchedulingTerm)
deriving DecidableEq, Repr

/-- corev1.PodAntiAffinity (only the preferred list is ever used). -/
structure PodAntiAffinity where
  preferred : Option (List WeightedPodAffinityTerm)
deriving DecidableEq, Repr

/-- corev1.Affinity; the nil pointers of Go are `none`. -/
structure Affinity where
  nodeAffinity : Option NodeAffinity
  podAntiAffinity : Option PodAntiAffinity
deriving DecidableEq, Repr

/-- The pod template spec fields the webhook reads (corev1.PodSpec subset);
`nodeSelector = none` is the nil map. -/
structure PodSpec where
  affinity : Option Affinity
  nodeSelector : Option Labels
deriving DecidableEq, Repr

/-- A Deployment or StatefulSet as the webhook sees it: namespace, labels,
spec.Selector and spec.Template.Spec. -/
structure TemplateObject where
  ns : String
  labels : Labels
  selector : LabelSelector
  spec : PodSpec
deriving DecidableEq, Repr

/-! ## Shared constants (app.go / server.go) -/

def capacityKey : String := "node.kubernetes.io/capacity"
def ondemand : String := "on-demand"
def spot : String := "spot"
def spotWeithtKey : String := "spot/weight"
def ondemandWeithtKey : String := "on-demand/weight"
def mixSchedulerKey : String := "mix-scheduler-admission-webhook"

/-! ## The skip decision (identical in app.go and server.go) -/

/-- `isControllerNamespace`: true when the namespace is not in the configured
notControllerNamespace set. -/
def isControllerNamespace (notControllerNamespace : List String) (ns : String) : Bool :=
  !(notControllerNamespace.contains ns)

/-- `instanceIsSkip` of app.go / server.go: skip when the namespace is excluded,
or the instance label is set to a non-empty value other than "true", or the
global switch is off. -/
def instanceIsSkip (notControllerNamespace : List String) (mixSchedulerRequierd : Bool)
    (ns : String) (lbls : Labels) : Bool :=
  if !(isControllerNamespace notControllerNamespace ns) then true
  else if (match lookupLabel lbls mixSchedulerKey with
           | some v => v != "" && v != "true"
           | none => false) then true
  else if !mixSchedulerRequierd then true
  else false

/-- The namespace-label check done inline in both HandleMutate variants:
skip when the namespace label is set, non-empty and not "true". -/
def nsLabelSkip (nsLabels : Labels) : Bool :=
  match lookupLabel nsLabels mixSchedulerKey with
  | some v => v != "" && v != "true"
  | none => false

/-! ## The patch and response model (JSONPatchEntry / AdmissionResponse)

A patch value is either a serialized affinity or a serialized node-selector
map; the admission outcome is allow-without-patch (`writeNil`), reject
(`HandleError`), or allow-with-patch. -/

/-- The value of a JSONPatchEntry, kept structured instead of as JSON bytes. -/
inductive PatchValue where
  | affinityVal (a : Affinity)
  | nodeSelectorVal (m : Labels)
deriving DecidableEq, Repr

/-- JSONPatchEntry of app.go / server.go. -/
structure JSONPatchEntry where
  op : String
  path : String
  value : PatchValue
deriving DecidableEq, Repr

/-- The three admission outcomes the handlers produce. -/
inductive MutateResponse where
  | allowNoPatch
  | reject (msg : String)
  | allowPatch (patch : List JSONPatchEntry)
deriving DecidableEq, Repr

/-! ## Weight resolution (app.go, HandleMutate lines 197-260)

The Go code parses the instance labels first, setting a single
`instanceIsSet` flag when either weight label is present, and consults the
namespace labels only when that flag stayed false. The nested matches below
are that control flow with the flag expanded. -/

/-- Weight resolution of app.go: instance labels first (either one sets the
instanceIsSet flag), namespace labels only when the instance set neither. -/
def resolveWeights (instanceLabels namespaceLabels : Labels) (spotDefault ondemandDefault : Int) :
    Except String (Int × Int) :=
  match lookupLabel instanceLabels spotWeithtKey with
  | some v =>
    match goAtoi v with
    | none => .error "parse spot weight"
    | some sw =>
      if sw < 0 then .error "spot weight must >= 0"
      else
        match lookupLabel instanceLabels ondemandWeithtKey with
        | some v2 =>
          match goAtoi v2 with
          | none => .error "parse on-demand weight"
          | some ow =>
            if ow < 0 then .error "on-demand weight must >= 0"
            else .ok (int32ofInt sw, int32ofInt ow)
        | none => .ok (int32ofInt sw, ondemandDefault)
  | none =>
    match lookupLabel instanceLabels ondemandWeithtKey with
    | some v2 =>
      match goAtoi v2 with
      | none => .error "parse on-demand weight"
      | some ow =>
        if ow < 0 then .error "on-demand weight must >= 0"
        else .ok (spotDefault, int32ofInt ow)
    | none =>
      match lookupLabel namespaceLabels spotWeithtKey with
      | some v =>
        match goAtoi v with
        | none => .error "parse spot weight"
        | some sw =>
          if sw < 0 then .error "spot weight must >= 0"
          else
            match lookupLabel namespaceLabels ondemandWeithtKey with
            | some v2 =>
              match goAtoi v2 with
              | none => .error "parse on-demand weight"
              | some ow =>
                if ow < 0 then .error "on-demand weight must >= 0"
                else .ok (int32ofInt sw, int32ofInt ow)
            | none => .ok (int32ofInt sw, ondemandDefault)
      | none =>
        match lookupLabel namespaceLabels ondemandWeithtKey with
        | some v2 =>
          match goAtoi v2 with
          | none => .error "parse on-demand weight"
          | some ow =>
            if ow < 0 then .error "on-demand weight must >= 0"
            else .ok (spotDefault, int32ofInt ow)
        | none => .ok (spotDefault, ondemandDefault)

/-! ## The app.go handler (Deployment / StatefulSet path) -/

/-- FillAffinity of app.go: lazily fill a missing affinity block, missing
node-affinity / pod-anti-affinity sub-structures, and nil preferred lists. -/
def FillAffinityApp (podSpec : PodSpec) : Affinity :=
  let a0 : Affinity :=
    match podSpec.affinity with
    | none =>
      { nodeAffinity := some { required := none, preferred := some [] }
        podAntiAffinity := some { preferred := some [] } }
    | some a => a
  let a1 : Affinity :=
    match a0.nodeAffinity with
    | none => { a0 with nodeAffinity := some { required := none, preferred := some [] } }
    | some na =>
      match na.preferred with
      | none => { a0 with nodeAffinity := some { na with preferred := some [] } }
      | some _ => a0
  match a1.podAntiAffinity with
  | none => { a1 with podAntiAffinity := some { preferred := some [] } }
  | some paa =>
    match paa.preferred with
    | none => { a1 with podAntiAffinity := some { paa with preferred := some [] } }
    | some _ => a1

/-- The spot node-affinity preference of NewDefaultApp (app.go), weight 10. -/
def SpotNodeAffinityPreferredDefault : PreferredSchedulingTerm :=
  { weight := 10
    preference := { matchExpressions := [{ key := capacityKey, op := "In", values := [spot] }] } }

/-- The on-demand node-affinity preference of NewDefaultApp (app.go), weight 1. -/
def OndemandNodeAffinityPreferredDefault : PreferredSchedulingTerm :=
  { weight := 1
    preference := { matchExpressions := [{ key := capacityKey, op := "In", values := [ondemand] }] } }

/-- The pod-anti-affinity term app.go builds: weight 1, per-host topology key,
keyed by the workload selector. -/
def podAntiAffinityTermApp (selector : LabelSelector) : WeightedPodAffinityTerm :=
  { weight := 1
    podAffinityTerm := { topologyKey := "kubernetes.io/hostname", labelSelector := some selector } }

/-- The configuration of the app.go App relevant to HandleMutate. -/
structure AppCfg where
  mixSchedulerRequierd : Bool
  notControllerNamespace : List String
  SpotNodeAffinityPreferred : PreferredSchedulingTerm
  OndemandNodeAffinityPreferred : PreferredSchedulingTerm
deriving DecidableEq, Repr

/-- HandleMutate of app.go on a Deployment or StatefulSet (both kind branches
run this same code on the extracted fields). `nsFetch` is the result of the
namespace Get against the cluster; a `none` result models the Go nil-pointer
dereference (unreachable on this path because FillAffinity filled both
sub-structures). -/
def handleTemplateApp (cfg : AppCfg) (obj : TemplateObject) (nsFetch : Except Unit Labels) :
    Option MutateResponse :=
  if instanceIsSkip cfg.notControllerNamespace cfg.mixSchedulerRequierd obj.ns obj.labels then
    some .allowNoPatch
  else
    match nsFetch with
    | .error _ => some (.reject "get namespace")
    | .ok nsLabels =>
      if nsLabelSkip nsLabels then some .allowNoPatch
      else
        match resolveWeights obj.labels nsLabels
            cfg.SpotNodeAffinityPreferred.weight cfg.OndemandNodeAffinityPreferred.weight with
        | .error msg => some (.reject msg)
        | .ok (spotWeitht, ondemandWeitht) =>
          let affinity := FillAffinityApp obj.spec
          match affinity.nodeAffinity, affinity.podAntiAffinity with
          | some na, some paa =>
            let na2 := { na with preferred := some (na.preferred.getD [] ++
                [{ cfg.SpotNodeAffinityPreferred with weight := spotWeitht },
                 { cfg.OndemandNodeAffinityPreferred with weight := ondemandWeitht }]) }
            let paa2 := { paa with preferred := some (paa.preferred.getD [] ++
                [podAntiAffinityTermApp obj.selector]) }
            let affinity2 : Affinity :=
              { affinity with nodeAffinity := some na2, podAntiAffinity := some paa2 }
            some (.allowPatch
              [{ op := "replace", path := "/spec/template/spec/affinity",
                 value := .affinityVal affinity2 }])
          | _, _ => none

/-! ## The cluster read model (helpers.go and the informer-backed getters)

The read operations can fail transiently (direct-mode query error, or a
lister miss); a failure flag per operation kind models that environment.
A `.error` result is a Go non-nil error. -/

/-- A pod condition (type, status, reason) as read by PodReady. -/
structure PodCondition where
  condType : String
  status : String
  reason : String
deriving DecidableEq, Repr

/-- The pod fields the webhook reads. -/
structure Pod where
  name : String
  ns : String
  labels : Labels
  nodeName : String
  conditions : List PodCondition
deriving DecidableEq, Repr

/-- The node fields the webhook reads. -/
structure Node where
  name : String
  labels : Labels
deriving DecidableEq, Repr

/-- The cluster state visible through the read helpers, plus per-operation
transient-failure flags for the environment. -/
structure Cluster where
  nodes : List Node
  pods : List Pod
  namespaces : List (String × Labels)
  listNodeFails : Bool
  listPodFails : Bool
  getNodeFails : Bool
  getNamespaceFails : Bool
deriving DecidableEq, Repr

/-- ListNode with the selector {capacityKey: capacity} used by the webhook. -/
def ListNode (c : Cluster) (capacity : String) : Except Unit (List Node) :=
  if c.listNodeFails then .error ()
  else .ok (c.nodes.filter fun n => lookupLabel n.labels capacityKey == some capacity)

/-- ListPod in a namespace with the selector labels.Set(pod.Labels).AsSelector():
every key/value of the selector must be carried by the pod. -/
def ListPod (c : Cluster) (ns : String) (sel : Labels) : Except Unit (List Pod) :=
  if c.listPodFails then .error ()
  else .ok (c.pods.filter fun p =>
    p.ns == ns && sel.all fun kv => lookupLabel p.labels kv.1 == some kv.2)

/-- GetNode by name; a miss is an error like a failed query. -/
def GetNode (c : Cluster) (name : String) : Except Unit Node :=
  if c.getNodeFails then .error ()
  else
    match c.nodes.find? (fun n => n.name == name) with
    | some n => .ok n
    | none => .error ()

/-- GetNamespace by name, returning its labels; a miss is an error. -/
def GetNamespaceLabels (c : Cluster) (name : String) : Except Unit Labels :=
  if c.getNamespaceFails then .error ()
  else
    match c.namespaces.find? (fun p => p.1 == name) with
    | some p => .ok p.2
    | none => .error ()

/-- PodReady of helpers.go: some condition of type Ready whose reason is
PodCompleted or whose status is True. -/
def PodReady (p : Pod) : Bool :=
  p.conditions.any fun cond =>
    cond.condType == "Ready" && (cond.reason == "PodCompleted" || cond.status == "True")

/-- podExistAndReadyOnNodeCapacityNum of helpers.go: count the ready pods
matching the pod labels that sit on a node of the given capacity class; any
read failure (and the no-nodes case) degrades to 0. server.go calls this
count under the name podExistOnNodeCapacityNum. -/
def podExistAndReadyOnNodeCapacityNum (c : Cluster) (capacity : String) (pod : Pod) : Nat :=
  match ListNode c capacity with
  | .error _ => 0
  | .ok capacityNodes =>
    if capacityNodes.isEmpty then 0
    else
      match ListPod c pod.ns pod.labels with
      | .error _ => 0
      | .ok pods =>
        (pods.filter fun p =>
          capacityNodes.any (fun n => n.name == p.nodeName) && PodReady p).length

/-- nodeCapacity of helpers.go: the capacity label of the named node, with ""
for a missing label or a failed node read. -/
def nodeCapacity (c : Cluster) (nodeName : String) : String :=
  match GetNode c nodeName with
  | .error _ => ""
  | .ok node => (lookupLabel node.labels capacityKey).getD ""

/-! ## The server.go handler (Pod floor logic and its template path) -/

/-- The configuration of the server.go App relevant to HandleMutate. -/
structure SrvApp where
  OnDemandMinPodNum : Nat
  SpotMinPodNum : Nat
  mixSchedulerRequierd : Bool
  notControllerNamespace : List String
  ondemandNodeSelector : Labels
  spotNodeSelector : Labels
deriving DecidableEq, Repr

/-- NewDefaultApp of server.go (floors 1, both selectors on the capacity key). -/
def NewDefaultSrvApp : SrvApp :=
  { OnDemandMinPodNum := 1
    SpotMinPodNum := 1
    mixSchedulerRequierd := true
    notControllerNamespace := []
    ondemandNodeSelector := [(capacityKey, ondemand)]
    spotNodeSelector := [(capacityKey, spot)] }

/-- FillAffinity of server.go: only a fully missing affinity block is
replaced by a fresh one holding an empty anti-affinity preferred list;
an existing block is returned unchanged (no sub-structure is filled). -/
def FillAffinityServer (podSpec : PodSpec) : Affinity :=
  match podSpec.affinity with
  | none => { nodeAffinity := none, podAntiAffinity := some { preferred := some [] } }
  | some a => a

/-- The admission operation tag. -/
inductive Operation where
  | create
  | update
  | delete
deriving DecidableEq, Repr

/-- The Pod branch of HandleMutate in server.go: skip check, then the
delete veto (only when the pod sits on an on-demand node), then the create
floor check with its node-selector patch; anything else is allowed bare. -/
def handlePodServer (app : SrvApp) (c : Cluster) (op : Operation) (pod : Pod) : MutateResponse :=
  if instanceIsSkip app.notControllerNamespace app.mixSchedulerRequierd pod.ns pod.labels then
    .allowNoPatch
  else if op == .delete && nodeCapacity c pod.nodeName == ondemand then
    if podExistAndReadyOnNodeCapacityNum c spot pod ≥ app.SpotMinPodNum
        && podExistAndReadyOnNodeCapacityNum c ondemand pod < app.OnDemandMinPodNum then
      .reject "preferentially scale pods on spot nodes"
    else
      .allowNoPatch
  else if op == .create then
    if podExistAndReadyOnNodeCapacityNum c ondemand pod ≥ app.OnDemandMinPodNum then
      .allowNoPatch
    else
      .allowPatch
        [{ op := "replace", path := "/spec/nodeSelector",
           value := .nodeSelectorVal [(capacityKey, ondemand)] }]
  else
    .allowNoPatch

/-- The pod-anti-affinity term server.go builds for templates: weight 100,
per-host topology key, keyed by the workload selector. -/
def podAntiAffinityTermServer (selector : LabelSelector) : WeightedPodAffinityTerm :=
  { weight := 100
    podAffinityTerm := { topologyKey := "kubernetes.io/hostname", labelSelector := some selector } }

/-- The Deployment / StatefulSet branch of HandleMutate in server.go: skip
checks, namespace fetch (a failed fetch is rejected), then the anti-affinity
preferred list is assigned (replacing whatever was there; a `none`
anti-affinity pointer makes the Go code dereference nil, modelled as the
`none` result) and the template node selector gets the spot class merged in. -/
def handleTemplateServer (app : SrvApp) (c : Cluster) (obj : TemplateObject) :
    Option MutateResponse :=
  if instanceIsSkip app.notControllerNamespace app.mixSchedulerRequierd obj.ns obj.labels then
    some .allowNoPatch
  else
    match GetNamespaceLabels c obj.ns with
    | .error _ => some (.reject "get namespace")
    | .ok nsLabels =>
      if nsLabelSkip nsLabels then some .allowNoPatch
      else
        let nodeSelector := obj.spec.nodeSelector.getD []
        let affinity := FillAffinityServer obj.spec
        match affinity.podAntiAffinity with
        | none => none
        | some paa =>
          let paa2 : PodAntiAffinity :=
            { paa with preferred := some [podAntiAffinityTermServer obj.selector] }
          let affinity2 : Affinity := { affinity with podAntiAffinity := some paa2 }
          let nodeSelector2 :=
            mapSet nodeSelector capacityKey ((lookupLabel app.spotNodeSelector capacityKey).getD "")
          some (.allowPatch
            [{ op := "replace", path := "/spec/template/spec/affinity",
               value := .affinityVal affinity2 },
             { op := "replace", path := "/spec/template/spec/nodeSelector",
               value := .nodeSelectorVal nodeSelector2 }])

/-- An admission request as routed by server.go: the declared kind string,
the operation, and the object decoded under each schema the handler may
pick (the unused view is ignored by the handler). -/
structure AdmissionRequest where
  kind : String
  operation : Operation
  template : TemplateObject
  pod : Pod
deriving DecidableEq, Repr

/-- HandleMutate of server.go: route on the declared kind; an unknown kind
is answered allow-without-patch. -/
def handleMutateServer (app : SrvApp) (c : Cluster) (req : AdmissionRequest) :
    Option MutateResponse :=
  match req.kind with
  | "Deployment" => handleTemplateServer app c req.template
  | "StatefulSet" => handleTemplateServer app c req.template
  | "Pod" => some (handlePodServer app c req.operation req.pod)
  | _ => some .allowNoPatch

/-! ## Accessors and predicates used by the theorem statements -/

/-- The node-affinity block a template carried before mutation, if any. -/
def existingNodeAffinity (spec : PodSpec) : Option NodeAffinity :=
  spec.affinity.bind (·.nodeAffinity)

/-- The required node-selector terms a template carried before mutation. -/
def existingNodeRequired (spec : PodSpec) : Option (List NodeSelectorTerm) :=
  (existingNodeAffinity spec).bind (·.required)

/-- The node-affinity preferences a template carried before mutation. -/
def existingNodePreferred (spec : PodSpec) : List PreferredSchedulingTerm :=
  ((existingNodeAffinity spec).bind (·.preferred)).getD []

/-- The pod-anti-affinity preferences a template carried before mutation. -/
def existingAntiPreferred (spec : PodSpec) : List WeightedPodAffinityTerm :=
  ((spec.affinity.bind (·.podAntiAffinity)).bind (·.preferred)).getD []

/-- A weight label value the resolver must refuse: not an integer, or negative. -/
def isBadWeight (v : String) : Bool :=
  match goAtoi v with
  | none => true
  | some n => decide (n < 0)

/-- Whether a handler outcome is allow-with-patch. -/
def isAllowPatch (r : Option MutateResponse) : Bool :=
  match r with
  | some (.allowPatch _) => true
  | _ => false

/-- Whether a handler outcome is a rejection. -/
def isReject (r : Option MutateResponse) : Bool :=
  match r with
  | some (.reject _) => true
  | _ => false

/-! ## The resolution rule in the per-field form of the specification

`resolveWeightsSpec` renders the resolution rule that the code actually
implements, stated field by field: the instance label wins when present;
when the instance carries neither weight label the namespace label is
consulted per field; a field not supplied by a consulted level takes the
process default. It is compared with `resolveWeights` (the code) in the
refinement theorem for claim C1. -/

/-- Parse one weight label value: Atoi then the non-negativity check,
with the per-field error messages of app.go. -/
def parseWeightAs (parseMsg negMsg : String) (v : String) : Except String Int :=
  match goAtoi v with
  | none => .error parseMsg
  | some n => if n < 0 then .error negMsg else .ok (int32ofInt n)

/-- Resolve one weight field: instance value when present; else the default
when the instance supplied any weight field; else namespace value when
present; else the default. -/
def resolveFieldSpec (instHasAny : Bool) (instVal nsVal : Option String)
    (parseMsg negMsg : String) (dflt : Int) : Except String Int :=
  match instVal with
  | some v => parseWeightAs parseMsg negMsg v
  | none =>
    if instHasAny then .ok dflt
    else
      match nsVal with
      | some v => parseWeightAs parseMsg negMsg v
      | none => .ok dflt

/-- The per-field statement of the implemented resolution rule (spot field
first, then on-demand, as the code orders its error reporting). -/
def resolveWeightsSpec (il nl : Labels) (spotDefault ondemandDefault : Int) :
    Except String (Int × Int) :=
  let instHasAny := (lookupLabel il spotWeithtKey).isSome || (lookupLabel il ondemandWeithtKey).isSome
  match resolveFieldSpec instHasAny (lookupLabel il spotWeithtKey) (lookupLabel nl spotWeithtKey)
      "parse spot weight" "spot weight must >= 0" spotDefault with
  | .error e => .error e
  | .ok sw =>
    match resolveFieldSpec instHasAny (lookupLabel il ondemandWeithtKey)
        (lookupLabel nl ondemandWeithtKey)
        "parse on-demand weight" "on-demand weight must >= 0" ondemandDefault with
    | .error e => .error e
    | .ok ow => .ok (sw, ow)

/-! ## Concrete fixtures for the witnesses and counterexamples -/

/-- A ready condition. -/
def condReady : PodCondition := { condType := "Ready", status := "True", reason := "" }

/-- A pod in namespace default with one label, bound to node n1, ready. -/
def podP : Pod :=
  { name := "p", ns := "default", labels := [("app", "x")], nodeName := "n1",
    conditions := [condReady] }

/-- One node labelled with the on-demand capacity class. -/
def nodeOndemand : Node := { name := "n1", labels := [(capacityKey, ondemand)] }

/-- Cluster for the C3 counterexample: the pod itself is the only ready
on-demand replica and there is no spot node (spot count 0, on-demand count 1). -/
def clusterDelete : Cluster :=
  { nodes := [nodeOndemand], pods := [podP], namespaces := [("default", [])],
    listNodeFails := false, listPodFails := false, getNodeFails := false,
    getNamespaceFails := false }

/-- Cluster with no pods at all (on-demand ready count 0). -/
def clusterEmpty : Cluster :=
  { nodes := [nodeOndemand], pods := [], namespaces := [("default", [])],
    listNodeFails := false, listPodFails := false, getNodeFails := false,
    getNamespaceFails := false }

/-- Cluster whose namespace read fails transiently. -/
def clusterNsFail : Cluster := { clusterEmpty with getNamespaceFails := true }

/-- The selector of the fixture workloads. -/
def selApp : LabelSelector := { matchLabels := [("app", "x")] }

/-- An app.go configuration with the NewDefaultApp affinity terms and the
default excluded namespaces. -/
def cfgDefaultApp : AppCfg :=
  { mixSchedulerRequierd := true,
    notControllerNamespace := ["kube-system", "mix-scheduler-system"],
    SpotNodeAffinityPreferred := SpotNodeAffinityPreferredDefault,
    OndemandNodeAffinityPreferred := OndemandNodeAffinityPreferredDefault }

/-- A template object with no labels and no pre-existing affinity. -/
def objNoLabels : TemplateObject :=
  { ns := "default", labels := [], selector := selApp,
    spec := { affinity := none, nodeSelector := none } }

/-- A template object whose instance labels set only the spot weight. -/
def objSpotWeightOnly : TemplateObject := { objNoLabels with labels := [(spotWeithtKey, "3")] }

/-- Namespace labels carrying a negative on-demand weight. -/
def nsLabelsBadWeight : Labels := [(ondemandWeithtKey, "-5")]

/-- A pre-existing pod-anti-affinity preference (for the C5 counterexample). -/
def preExistingAntiTerm : WeightedPodAffinityTerm :=
  { weight := 7, podAffinityTerm := { topologyKey := "zone", labelSelector := none } }

/-- The anti-affinity block holding the pre-existing preference. -/
def preExistingAnti : PodAntiAffinity := { preferred := some [preExistingAntiTerm] }

/-- A template object already carrying that pod-anti-affinity preference. -/
def objPreAnti : TemplateObject :=
  { ns := "default", labels := [], selector := selApp,
    spec := { affinity := some { nodeAffinity := none, podAntiAffinity := some preExistingAnti },
              nodeSelector := none } }

/-- A template object in a namespace of the default excluded set. -/
def objExcluded : TemplateObject := { objNoLabels with ns := "kube-system" }

/-- A pod in a namespace of the default excluded set. -/
def podExcluded : Pod := { podP with ns := "kube-system" }

/-- The server.go app with the default excluded namespaces. -/
def srvAppDefaultNs : SrvApp :=
  { NewDefaultSrvApp with notControllerNamespace := ["kube-system", "mix-scheduler-system"] }

/-- An admission request with an unrecognized kind. -/
def reqUnknownKind : AdmissionRequest :=
  { kind := "ConfigMap", operation := .create, template := objNoLabels, pod := podP }

/-- A template object with an unparseable spot weight label. -/
def objBadWeight : TemplateObject := { objNoLabels with labels := [(spotWeithtKey, "abc")] }

/-- A template object carrying a pre-existing node selector entry. -/
def objWithNodeSel : TemplateObject :=
  { ns := "default", labels := [], selector := selApp,
    spec := { affinity := none, nodeSelector := some [("disk", "ssd")] } }

/-- The patch server.go produces for objWithNodeSel on clusterEmpty. -/
def pConcrete : List JSONPatchEntry :=
  [{ op := "replace", path := "/spec/template/spec/affinity",
     value := .affinityVal
       { nodeAffinity := none,
         podAntiAffinity := some { preferred := some [podAntiAffinityTermServer selApp] } } },
   { op := "replace", path := "/spec/template/spec/nodeSelector",
     value := .nodeSelectorVal [("disk", "ssd"), (capacityKey, spot)] }]

/-- A cluster where every read operation fails transiently. -/
def clusterAllFail : Cluster :=
  { clusterEmpty with
    listNodeFails := true
    listPodFails := true
    getNodeFails := true
    getNamespaceFails := true }

/-! ## Helper lemmas -/

/-- Setting a key in a Go map makes that key map to the new value. -/
theorem lookupLabel_mapSet_self (m : Labels) (k v : String) :
    lookupLabel (mapSet m k v) k = some v := by
  induction m with
  | nil => simp [mapSet, lookupLabel]
  | cons p rest ih =>
    by_cases h : p.1 = k
    · simp [mapSet, lookupLabel, h]
    · simp [mapSet, lookupLabel, h, ih]

/-- Setting a key in a Go map leaves every other key unchanged. -/
theorem lookupLabel_mapSet_other (m : Labels) (k v k' : String) (h : k' ≠ k) :
    lookupLabel (mapSet m k v) k' = lookupLabel m k' := by
  induction m with
  | nil => simp [mapSet, lookupLabel, Ne.symm h]
  | cons p rest ih =>
    by_cases hp : p.1 = k
    · simp [mapSet, lookupLabel, hp, Ne.symm h]
    · by_cases hp' : p.1 = k'
      · simp [mapSet, lookupLabel, hp, hp', h]
      · simp [mapSet, lookupLabel, hp, hp', ih]

/-- FillAffinity of app.go in closed form: every sub-structure is present
afterwards, the pre-existing preference lists and required terms are kept. -/
theorem fillAffinityApp_eq (spec : PodSpec) :
    FillAffinityApp spec =
      { nodeAffinity := some { required := existingNodeRequired spec,
                               preferred := some (existingNodePreferred spec) },
        podAntiAffinity := some { preferred := some (existingAntiPreferred spec) } } := by
  rcases spec with ⟨aff, nsel⟩
  rcases aff with _ | ⟨na, paa⟩
  · rfl
  · rcases na with _ | ⟨req, pref⟩
    · rcases paa with _ | ⟨apref⟩
      · rfl
      · rcases apref with _ | l <;> rfl
    · rcases pref with _ | l
      · rcases paa with _ | ⟨apref⟩
        · rfl
        · rcases apref with _ | l2 <;> rfl
      · rcases paa with _ | ⟨apref⟩
        · rfl
        · rcases apref with _ | l2 <;> rfl

/-- The resolution of app.go agrees everywhere with its per-field statement
(helper; the claim C1 theorem instantiates it). -/
theorem resolveWeights_eq_spec_aux (il nl : Labels) (ds dod : Int) :
    resolveWeights il nl ds dod = resolveWeightsSpec il nl ds dod := by
  cases h1 : lookupLabel il spotWeithtKey with
  | some v =>
    cases hv : goAtoi v with
    | none =>
      simp [resolveWeights, resolveWeightsSpec, resolveFieldSpec, parseWeightAs, h1, hv]
    | some sw =>
      by_cases hsw : sw < 0
      · simp [resolveWeights, resolveWeightsSpec, resolveFieldSpec, parseWeightAs, h1, hv, hsw]
      · cases h2 : lookupLabel il ondemandWeithtKey with
        | none =>
          simp [resolveWeights, resolveWeightsSpec, resolveFieldSpec, parseWeightAs, h1, h2, hv,
            hsw]
        | some v2 =>
          cases hv2 : goAtoi v2 with
          | none =>
            simp [resolveWeights, resolveWeightsSpec, resolveFieldSpec, parseWeightAs, h1, h2, hv,
              hv2, hsw]
          | some ow =>
            by_cases how : ow < 0 <;>
              simp [resolveWeights, resolveWeightsSpec, resolveFieldSpec, parseWeightAs, h1, h2,
                hv, hv2, hsw, how]
  | none =>
    cases h2 : lookupLabel il ondemandWeithtKey with
    | some v2 =>
      cases hv2 : goAtoi v2 with
      | none =>
        simp [resolveWeights, resolveWeightsSpec, resolveFieldSpec, parseWeightAs, h1, h2, hv2]
      | some ow =>
        by_cases how : ow < 0 <;>
          simp [resolveWeights, resolveWeightsSpec, resolveFieldSpec, parseWeightAs, h1, h2, hv2,
            how]
    | none =>
      cases h3 : lookupLabel nl spotWeithtKey with
      | some v =>
        cases hv : goAtoi v with
        | none =>
          simp [resolveWeights, resolveWeightsSpec, resolveFieldSpec, parseWeightAs, h1, h2, h3,
            hv]
        | some sw =>
          by_cases hsw : sw < 0
          · simp [resolveWeights, resolveWeightsSpec, resolveFieldSpec, parseWeightAs, h1, h2, h3,
              hv, hsw]
          · cases h4 : lookupLabel nl ondemandWeithtKey with
            | none =>
              simp [resolveWeights, resolveWeightsSpec, resolveFieldSpec, parseWeightAs, h1, h2,
                h3, h4, hv, hsw]
            | some v2 =>
              cases hv2 : goAtoi v2 with
              | none =>
                simp [resolveWeights, resolveWeightsSpec, resolveFieldSpec, parseWeightAs, h1, h2,
                  h3, h4, hv, hv2, hsw]
              | some ow =>
                by_cases how : ow < 0 <;>
                  simp [resolveWeights, resolveWeightsSpec, resolveFieldSpec, parseWeightAs, h1,
                    h2, h3, h4, hv, hv2, hsw, how]
      | none =>
        cases h4 : lookupLabel nl ondemandWeithtKey with
        | some v2 =>
          cases hv2 : goAtoi v2 with
          | none =>
            simp [resolveWeights, resolveWeightsSpec, resolveFieldSpec, parseWeightAs, h1, h2, h3,
              h4, hv2]
          | some ow =>
            by_cases how : ow < 0 <;>
              simp [resolveWeights, resolveWeightsSpec, resolveFieldSpec, parseWeightAs, h1, h2,
                h3, h4, hv2, how]
        | none =>
          simp [resolveWeights, resolveWeightsSpec, resolveFieldSpec, parseWeightAs, h1, h2, h3,
            h4]

/-- A weight label that the resolver actually consults (instance level, or
namespace level when the instance carries no weight label) and that is bad
makes the resolution fail (helper for claim C6). -/
theorem resolveWeights_error_of_bad (il nl : Labels) (ds dod : Int)
    (hbad :
      (∃ v, lookupLabel il spotWeithtKey = some v ∧ isBadWeight v = true) ∨
      (∃ v, lookupLabel il ondemandWeithtKey = some v ∧ isBadWeight v = true) ∨
      (lookupLabel il spotWeithtKey = none ∧ lookupLabel il ondemandWeithtKey = none ∧
        ((∃ v, lookupLabel nl spotWeithtKey = some v ∧ isBadWeight v = true) ∨
         (∃ v, lookupLabel nl ondemandWeithtKey = some v ∧ isBadWeight v = true)))) :
    ∃ msg, resolveWeights il nl ds dod = .error msg := by
  rcases hbad with ⟨v, h1, hb⟩ | ⟨v, h2, hb⟩ | ⟨h1, h2, ⟨v, h3, hb⟩ | ⟨v, h4, hb⟩⟩
  · cases hv : goAtoi v with
    | none => exact ⟨"parse spot weight", by simp [resolveWeights, h1, hv]⟩
    | some n =>
      have hn : n < 0 := by simpa [isBadWeight, hv] using hb
      exact ⟨"spot weight must >= 0", by simp [resolveWeights, h1, hv, hn]⟩
  · cases hsp : lookupLabel il spotWeithtKey with
    | none =>
      cases hv : goAtoi v with
      | none => exact ⟨"parse on-demand weight", by simp [resolveWeights, hsp, h2, hv]⟩
      | some n =>
        have hn : n < 0 := by simpa [isBadWeight, hv] using hb
        exact ⟨"on-demand weight must >= 0", by simp [resolveWeights, hsp, h2, hv, hn]⟩
    | some v0 =>
      cases hv0 : goAtoi v0 with
      | none => exact ⟨"parse spot weight", by simp [resolveWeights, hsp, hv0]⟩
      | some sw =>
        by_cases hsw : sw < 0
        · exact ⟨"spot weight must >= 0", by simp [resolveWeights, hsp, hv0, hsw]⟩
        · cases hv : goAtoi v with
          | none => exact ⟨"parse on-demand weight", by simp [resolveWeights, hsp, hv0, hsw, h2, hv]⟩
          | some n =>
            have hn : n < 0 := by simpa [isBadWeight, hv] using hb
            exact ⟨"on-demand weight must >= 0", by simp [resolveWeights, hsp, hv0, hsw, h2, hv, hn]⟩
  · cases hv : goAtoi v with
    | none => exact ⟨"parse spot weight", by simp [resolveWeights, h1, h2, h3, hv]⟩
    | some n =>
      have hn : n < 0 := by simpa [isBadWeight, hv] using hb
      exact ⟨"spot weight must >= 0", by simp [resolveWeights, h1, h2, h3, hv, hn]⟩
  · cases hsp : lookupLabel nl spotWeithtKey with
    | none =>
      cases hv : goAtoi v with
      | none => exact ⟨"parse on-demand weight", by simp [resolveWeights, h1, h2, hsp, h4, hv]⟩
      | some n =>
        have hn : n < 0 := by simpa [isBadWeight, hv] using hb
        exact ⟨"on-demand weight must >= 0", by simp [resolveWeights, h1, h2, hsp, h4, hv, hn]⟩
    | some v0 =>
      cases hv0 : goAtoi v0 with
      | none => exact ⟨"parse spot weight", by simp [resolveWeights, h1, h2, hsp, hv0]⟩
      | some sw =>
        by_cases hsw : sw < 0
        · exact ⟨"spot weight must >= 0", by simp [resolveWeights, h1, h2, hsp, hv0, hsw]⟩
        · cases hv : goAtoi v with
          | none => exact ⟨"parse on-demand weight", by simp [resolveWeights, h1, h2, hsp, hv0, hsw, h4, hv]⟩
          | some n =>
            have hn : n < 0 := by simpa [isBadWeight, hv] using hb
            exact ⟨"on-demand weight must >= 0", by simp [resolveWeights, h1, h2, hsp, hv0, hsw, h4, hv, hn]⟩

/-! ## Claim C1 -/

/-- Claim C1 counterexample: with the instance supplying only the spot weight
(5) and the namespace supplying the on-demand weight (7), the claim predicts
an on-demand weight of 7 (namespace level wins for the field the instance
left unset), but the code resolves (5, 1): the single instanceIsSet flag
makes it skip the namespace level for both fields. -/
theorem C1_counterexample :
    resolveWeights [(spotWeithtKey, "5")] [(ondemandWeithtKey, "7")] 10 1 = .ok (5, 1) ∧
    resolveWeights [(spotWeithtKey, "5")] [(ondemandWeithtKey, "7")] 10 1 ≠ .ok (5, 7) := by
  refine ⟨rfl, ?_⟩
  intro h
  rw [show resolveWeights [(spotWeithtKey, "5")] [(ondemandWeithtKey, "7")] 10 1 =
    Except.ok ((5 : Int), (1 : Int)) from rfl] at h
  simp at h

/-- Claim C1 (amended): each weight field is taken from the instance label
when present; the namespace level is consulted, per field, only when the
instance supplies neither weight field; a field not supplied at a consulted
level takes the process default. Stated as the equality of the resolution
code with its per-field rendering `resolveWeightsSpec`. -/
theorem C1_amended_per_field_rule (il nl : Labels) (ds dod : Int) :
    resolveWeights il nl ds dod = resolveWeightsSpec il nl ds dod :=
  resolveWeights_eq_spec_aux il nl ds dod

/-! ## Claim C2 -/

/-- Claim C2 counterexample: a Pod create with zero ready on-demand replicas
under floor 1 is mutated, but the emitted patch holds exactly one entry
replacing the node selector — no self-anti-affinity term is added, contrary
to the claim. -/
theorem C2_counterexample :
    podExistAndReadyOnNodeCapacityNum clusterEmpty ondemand podP = 0 ∧
    NewDefaultSrvApp.OnDemandMinPodNum = 1 ∧
    handlePodServer NewDefaultSrvApp clusterEmpty .create podP =
      .allowPatch [{ op := "replace", path := "/spec/nodeSelector",
                     value := .nodeSelectorVal [(capacityKey, ondemand)] }] :=
  ⟨rfl, rfl, rfl⟩

/-- Claim C2 (amended): for a Pod create past the skip decision, a ready
on-demand count at or above the floor is allowed with no patch; below the
floor the response is allowed with a patch that only replaces the node
selector by the on-demand capacity class (no anti-affinity is added). -/
theorem C2_amended_create_floor (app : SrvApp) (c : Cluster) (pod : Pod)
    (hskip : instanceIsSkip app.notControllerNamespace app.mixSchedulerRequierd
      pod.ns pod.labels = false) :
    (podExistAndReadyOnNodeCapacityNum c ondemand pod ≥ app.OnDemandMinPodNum →
      handlePodServer app c .create pod = .allowNoPatch) ∧
    (podExistAndReadyOnNodeCapacityNum c ondemand pod < app.OnDemandMinPodNum →
      handlePodServer app c .create pod =
        .allowPatch [{ op := "replace", path := "/spec/nodeSelector",
                       value := .nodeSelectorVal [(capacityKey, ondemand)] }]) := by
  constructor
  · intro hge
    simp [handlePodServer, hskip, hge]
  · intro hlt
    simp [handlePodServer, hskip, Nat.not_le.mpr hlt]

/-- Claim C2 witness: on the cluster where the pod itself is the one ready
on-demand replica, the floor is met and the create is allowed bare. -/
theorem C2_witness :
    handlePodServer NewDefaultSrvApp clusterDelete .create podP = .allowNoPatch :=
  (C2_amended_create_floor NewDefaultSrvApp clusterDelete podP rfl).1 (by decide)

/-! ## Claim C3 -/

/-- Claim C3 counterexample: deleting the replica on the on-demand node with
spot ready count 0 (floor 1) and on-demand ready count 1 (floor 1) is the
exact scenario the claim says must be rejected, but the code allows it with
no patch (the spot count is below its floor, and the on-demand count is not
below the floor before removal). -/
theorem C3_counterexample :
    nodeCapacity clusterDelete podP.nodeName = ondemand ∧
    podExistAndReadyOnNodeCapacityNum clusterDelete spot podP = 0 ∧
    podExistAndReadyOnNodeCapacityNum clusterDelete ondemand podP = 1 ∧
    NewDefaultSrvApp.SpotMinPodNum = 1 ∧
    NewDefaultSrvApp.OnDemandMinPodNum = 1 ∧
    handlePodServer NewDefaultSrvApp clusterDelete .delete podP = .allowNoPatch :=
  ⟨rfl, rfl, rfl, rfl, rfl, rfl⟩

/-- Claim C3 (amended): a Pod delete past the skip decision is rejected if
and only if the pod sits on an on-demand node, the spot ready count is at
or above its floor, and the on-demand ready count is already strictly below
its floor (not: would drop below by the removal); otherwise it is allowed,
and a delete is never answered with a patch. -/
theorem C3_amended_delete_veto (app : SrvApp) (c : Cluster) (pod : Pod)
    (hskip : instanceIsSkip app.notControllerNamespace app.mixSchedulerRequierd
      pod.ns pod.labels = false) :
    (handlePodServer app c .delete pod = .reject "preferentially scale pods on spot nodes" ↔
      (nodeCapacity c pod.nodeName = ondemand ∧
       podExistAndReadyOnNodeCapacityNum c spot pod ≥ app.SpotMinPodNum ∧
       podExistAndReadyOnNodeCapacityNum c ondemand pod < app.OnDemandMinPodNum)) ∧
    (∀ patch, handlePodServer app c .delete pod ≠ .allowPatch patch) := by
  by_cases hcap : nodeCapacity c pod.nodeName = ondemand
  · by_cases hsp : podExistAndReadyOnNodeCapacityNum c spot pod ≥ app.SpotMinPodNum
    · by_cases hod : podExistAndReadyOnNodeCapacityNum c ondemand pod < app.OnDemandMinPodNum
      · constructor
        · simp [handlePodServer, hskip, hcap, hsp, hod]
        · intro patch
          simp [handlePodServer, hskip, hcap, hsp, hod]
      · constructor
        · simp [handlePodServer, hskip, hcap, hsp, hod]
        · intro patch
          simp [handlePodServer, hskip, hcap, hsp, hod]
    · constructor
      · simp [handlePodServer, hskip, hcap, hsp]
      · intro patch
        simp [handlePodServer, hskip, hcap, hsp]
  · constructor
    · simp [handlePodServer, hskip, hcap]
    · intro patch
      simp [handlePodServer, hskip, hcap]

/-- Claim C3 witness: the amended theorem instantiated on the concrete
delete scenario (the delete is not answered with a patch). -/
theorem C3_witness :
    handlePodServer NewDefaultSrvApp clusterDelete .delete podP ≠ .allowPatch [] :=
  (C3_amended_delete_veto NewDefaultSrvApp clusterDelete podP rfl).2 []

/-! ## Claim C4 -/

/-- Claim C4: an admitted Deployment or StatefulSet template with no labels
on the instance and none on its namespace, under the default configuration
(enabled, spot weight 10, on-demand weight 1), is mutated by appending
exactly two node-affinity preferences (spot at 10, on-demand at 1) and
exactly one pod-anti-affinity preference (constant weight 1, keyed by the
workload selector and the per-host topology key) to whatever the template
already carried. -/
theorem C4_default_mutation (cfg : AppCfg) (obj : TemplateObject)
    (hns : cfg.notControllerNamespace.contains obj.ns = false)
    (hreq : cfg.mixSchedulerRequierd = true)
    (hsp : cfg.SpotNodeAffinityPreferred = SpotNodeAffinityPreferredDefault)
    (hod : cfg.OndemandNodeAffinityPreferred = OndemandNodeAffinityPreferredDefault)
    (hlbl : obj.labels = []) :
    handleTemplateApp cfg obj (.ok []) = some (.allowPatch
      [{ op := "replace", path := "/spec/template/spec/affinity",
         value := .affinityVal
           { nodeAffinity := some
               { required := existingNodeRequired obj.spec,
                 preferred := some (existingNodePreferred obj.spec ++
                   [SpotNodeAffinityPreferredDefault, OndemandNodeAffinityPreferredDefault]) },
             podAntiAffinity := some
               { preferred := some (existingAntiPreferred obj.spec ++
                   [podAntiAffinityTermApp obj.selector]) } } }]) := by
  have hns2 : obj.ns ∉ cfg.notControllerNamespace := by simpa using hns
  simp [handleTemplateApp, instanceIsSkip, isControllerNamespace, hns2, hreq, hlbl, hsp, hod,
    nsLabelSkip, lookupLabel, resolveWeights, fillAffinityApp_eq,
    SpotNodeAffinityPreferredDefault, OndemandNodeAffinityPreferredDefault]

/-- Claim C4 witness: the concrete default configuration and a bare template
produce exactly the two node preferences and the one anti-affinity term. -/
theorem C4_witness :
    handleTemplateApp cfgDefaultApp objNoLabels (.ok []) = some (.allowPatch
      [{ op := "replace", path := "/spec/template/spec/affinity",
         value := .affinityVal
           { nodeAffinity := some
               { required := none,
                 preferred := some [SpotNodeAffinityPreferredDefault,
                                    OndemandNodeAffinityPreferredDefault] },
             podAntiAffinity := some
               { preferred := some [podAntiAffinityTermApp selApp] } } }]) :=
  C4_default_mutation cfgDefaultApp objNoLabels rfl rfl rfl rfl rfl

/-! ## Claim C7 -/

/-- Claim C7: a request whose object namespace is in the excluded set is
never mutated — in the app.go template path, the server.go template path,
and the server.go pod path alike, regardless of any label on the object. -/
theorem C7_excluded_namespace (cfg : AppCfg) (app : SrvApp) (c : Cluster)
    (obj objS : TemplateObject) (pod : Pod) (op : Operation) (fetch : Except Unit Labels)
    (h1 : cfg.notControllerNamespace.contains obj.ns = true)
    (h2 : app.notControllerNamespace.contains objS.ns = true)
    (h3 : app.notControllerNamespace.contains pod.ns = true) :
    handleTemplateApp cfg obj fetch = some .allowNoPatch ∧
    handleTemplateServer app c objS = some .allowNoPatch ∧
    handlePodServer app c op pod = .allowNoPatch := by
  have h1m : obj.ns ∈ cfg.notControllerNamespace := by simpa using h1
  have h2m : objS.ns ∈ app.notControllerNamespace := by simpa using h2
  have h3m : pod.ns ∈ app.notControllerNamespace := by simpa using h3
  refine ⟨?_, ?_, ?_⟩ <;>
    simp [handleTemplateApp, handleTemplateServer, handlePodServer, instanceIsSkip,
      isControllerNamespace, h1m, h2m, h3m]

/-- Claim C7 witness: concrete objects in kube-system are allowed unmodified
by all three paths. -/
theorem C7_witness :
    handleTemplateApp cfgDefaultApp objExcluded (.ok []) = some .allowNoPatch ∧
    handleTemplateServer srvAppDefaultNs clusterEmpty objExcluded = some .allowNoPatch ∧
    handlePodServer srvAppDefaultNs clusterEmpty .create podExcluded = .allowNoPatch :=
  C7_excluded_namespace cfgDefaultApp srvAppDefaultNs clusterEmpty objExcluded objExcluded
    podExcluded .create (.ok []) rfl rfl rfl

/-! ## Claim C5 -/

/-- Claim C5 counterexample: a template that already carries one
pod-anti-affinity preference (weight 7) loses it — the emitted affinity
holds only the freshly built weight-100 term, so the mutation is not
append-only as the claim states. -/
theorem C5_counterexample :
    handleTemplateServer NewDefaultSrvApp clusterEmpty objPreAnti = some (.allowPatch
      [{ op := "replace", path := "/spec/template/spec/affinity",
         value := .affinityVal
           { nodeAffinity := none,
             podAntiAffinity := some
               { preferred := some [podAntiAffinityTermServer selApp] } } },
       { op := "replace", path := "/spec/template/spec/nodeSelector",
         value := .nodeSelectorVal [(capacityKey, spot)] }]) ∧
    preExistingAntiTerm ∉ [podAntiAffinityTermServer selApp] :=
  ⟨rfl, by decide⟩

/-- Claim C5 (amended): in the server.go template path, for an object that
already carries an affinity block, the pre-existing node-affinity block is
passed through unchanged, but the pod-anti-affinity preferred list is
replaced by exactly the single new self-anti-affinity term; and when the
carried block has no pod-anti-affinity sub-structure the handler does not
lazily fill it — it dereferences nil (modelled as the `none` outcome). -/
theorem C5_amended_replace_not_append (app : SrvApp) (c : Cluster) (obj : TemplateObject)
    (a : Affinity) (nsl : Labels)
    (hskip : instanceIsSkip app.notControllerNamespace app.mixSchedulerRequierd
      obj.ns obj.labels = false)
    (hns : GetNamespaceLabels c obj.ns = .ok nsl)
    (hnsskip : nsLabelSkip nsl = false)
    (haff : obj.spec.affinity = some a) :
    (a.podAntiAffinity = none → handleTemplateServer app c obj = none) ∧
    (∀ paa, a.podAntiAffinity = some paa →
      handleTemplateServer app c obj = some (.allowPatch
        [{ op := "replace", path := "/spec/template/spec/affinity",
           value := .affinityVal
             { nodeAffinity := a.nodeAffinity,
               podAntiAffinity := some
                 { preferred := some [podAntiAffinityTermServer obj.selector] } } },
         { op := "replace", path := "/spec/template/spec/nodeSelector",
           value := .nodeSelectorVal (mapSet (obj.spec.nodeSelector.getD []) capacityKey
             ((lookupLabel app.spotNodeSelector capacityKey).getD "")) }])) := by
  constructor
  · intro hnone
    simp [handleTemplateServer, hskip, hns, hnsskip, FillAffinityServer, haff, hnone]
  · intro paa hpaa
    simp [handleTemplateServer, hskip, hns, hnsskip, FillAffinityServer, haff, hpaa]

/-- Claim C5 witness: the amended theorem instantiated on the template that
carries the weight-7 anti-affinity preference. -/
theorem C5_witness :
    handleTemplateServer NewDefaultSrvApp clusterEmpty objPreAnti = some (.allowPatch
      [{ op := "replace", path := "/spec/template/spec/affinity",
         value := .affinityVal
           { nodeAffinity := none,
             podAntiAffinity := some
               { preferred := some [podAntiAffinityTermServer selApp] } } },
       { op := "replace", path := "/spec/template/spec/nodeSelector",
         value := .nodeSelectorVal [(capacityKey, spot)] }]) :=
  (C5_amended_replace_not_append NewDefaultSrvApp clusterEmpty objPreAnti
    { nodeAffinity := none, podAntiAffinity := some preExistingAnti } []
    rfl rfl rfl rfl).2 preExistingAnti rfl

/-! ## Claim C6 -/

/-- Claim C6 counterexample: with the instance setting a valid spot weight,
a negative on-demand weight label on the namespace is never parsed — the
request is allowed with a patch instead of being rejected, contrary to the
claim that a bad weight label at any level is rejected. -/
theorem C6_counterexample :
    isBadWeight "-5" = true ∧
    lookupLabel nsLabelsBadWeight ondemandWeithtKey = some "-5" ∧
    isAllowPatch (handleTemplateApp cfgDefaultApp objSpotWeightOnly (.ok nsLabelsBadWeight)) =
      true :=
  ⟨rfl, rfl, rfl⟩

/-- Claim C6 (amended): a weight label that the resolver actually consults
and that fails parsing or is negative makes the request rejected with no
patch; the consulted labels are the instance ones always, and the namespace
ones only when the instance carries no weight label at all. -/
theorem C6_amended_bad_weight_reject (cfg : AppCfg) (obj : TemplateObject) (nsl : Labels)
    (hskip : instanceIsSkip cfg.notControllerNamespace cfg.mixSchedulerRequierd
      obj.ns obj.labels = false)
    (hnsskip : nsLabelSkip nsl = false)
    (hbad :
      (∃ v, lookupLabel obj.labels spotWeithtKey = some v ∧ isBadWeight v = true) ∨
      (∃ v, lookupLabel obj.labels ondemandWeithtKey = some v ∧ isBadWeight v = true) ∨
      (lookupLabel obj.labels spotWeithtKey = none ∧
        lookupLabel obj.labels ondemandWeithtKey = none ∧
        ((∃ v, lookupLabel nsl spotWeithtKey = some v ∧ isBadWeight v = true) ∨
         (∃ v, lookupLabel nsl ondemandWeithtKey = some v ∧ isBadWeight v = true)))) :
    isReject (handleTemplateApp cfg obj (.ok nsl)) = true := by
  obtain ⟨msg, hmsg⟩ := resolveWeights_error_of_bad obj.labels nsl
    cfg.SpotNodeAffinityPreferred.weight cfg.OndemandNodeAffinityPreferred.weight hbad
  simp [handleTemplateApp, hskip, hnsskip, hmsg, isReject]

/-- Claim C6 witness: an unparseable spot weight on the instance makes the
handler reject the request. -/
theorem C6_witness :
    isReject (handleTemplateApp cfgDefaultApp objBadWeight (.ok [])) = true :=
  C6_amended_bad_weight_reject cfgDefaultApp objBadWeight [] rfl rfl
    (Or.inl ⟨"abc", rfl, rfl⟩)

/-! ## Claim C8 -/

/-- Claim C8: whenever the server.go template path mutates, the second patch
entry replaces the pod template node selector by the pre-existing entries
merged with the capacity key set to the spot class: the capacity key maps to
spot, every other key keeps its prior value. -/
theorem C8_spot_nodeselector (app : SrvApp) (c : Cluster) (obj : TemplateObject)
    (p : List JSONPatchEntry)
    (hsel : app.spotNodeSelector = [(capacityKey, spot)])
    (hp : handleTemplateServer app c obj = some (.allowPatch p)) :
    p.get? 1 = some
      { op := "replace", path := "/spec/template/spec/nodeSelector",
        value := .nodeSelectorVal (mapSet (obj.spec.nodeSelector.getD []) capacityKey spot) } ∧
    lookupLabel (mapSet (obj.spec.nodeSelector.getD []) capacityKey spot) capacityKey =
      some spot ∧
    ∀ k, k ≠ capacityKey →
      lookupLabel (mapSet (obj.spec.nodeSelector.getD []) capacityKey spot) k =
        lookupLabel (obj.spec.nodeSelector.getD []) k := by
  refine ⟨?_, lookupLabel_mapSet_self _ _ _, fun k hk => lookupLabel_mapSet_other _ _ _ _ hk⟩
  unfold handleTemplateServer at hp
  rw [hsel] at hp
  split at hp
  · simp at hp
  · split at hp
    · simp at hp
    · split at hp
      · simp at hp
      · simp only [lookupLabel, beq_self_eq_true, if_true, Option.getD_some] at hp
        split at hp
        · simp at hp
        · simp only [Option.some.injEq, MutateResponse.allowPatch.injEq] at hp
          subst hp
          simp [lookupLabel]

/-- Claim C8 witness: the theorem instantiated on a template whose node
selector already holds a disk entry; that entry survives the merge. -/
theorem C8_witness :
    pConcrete.get? 1 = some
      { op := "replace", path := "/spec/template/spec/nodeSelector",
        value := .nodeSelectorVal (mapSet [("disk", "ssd")] capacityKey spot) } ∧
    lookupLabel (mapSet [("disk", "ssd")] capacityKey spot) "disk" =
      lookupLabel [("disk", "ssd")] "disk" := by
  have h := C8_spot_nodeselector NewDefaultSrvApp clusterEmpty objWithNodeSel pConcrete rfl rfl
  exact ⟨h.1, h.2.2 "disk" (by decide)⟩

/-! ## Claim C9 -/

/-- Claim C9 counterexample: a failing namespace read in the server.go
template path is not treated as an absent object — it is surfaced as a
rejection, contrary to the claim that read failures never cause one. -/
theorem C9_counterexample :
    clusterNsFail.getNamespaceFails = true ∧
    handleTemplateServer NewDefaultSrvApp clusterNsFail objNoLabels =
      some (.reject "get namespace") :=
  ⟨rfl, rfl⟩

/-- Claim C9 (amended): failing node or pod reads degrade to a zero count or
an empty capacity value and the pod path never rejects a create; but a
failing namespace read in the template path is surfaced as a rejection. -/
theorem C9_read_failures (app : SrvApp) (c : Cluster) (capacity : String) (pod : Pod)
    (nodeName msg : String) (obj : TemplateObject)
    (hskip : instanceIsSkip app.notControllerNamespace app.mixSchedulerRequierd
      obj.ns obj.labels = false) :
    (c.listNodeFails = true → podExistAndReadyOnNodeCapacityNum c capacity pod = 0) ∧
    (c.listPodFails = true → podExistAndReadyOnNodeCapacityNum c capacity pod = 0) ∧
    (c.getNodeFails = true → nodeCapacity c nodeName = "") ∧
    handlePodServer app c .create pod ≠ .reject msg ∧
    (c.getNamespaceFails = true →
      handleTemplateServer app c obj = some (.reject "get namespace")) := by
  refine ⟨?_, ?_, ?_, ?_, ?_⟩
  · intro h
    simp [podExistAndReadyOnNodeCapacityNum, ListNode, h]
  · intro h
    by_cases hn : c.listNodeFails
    · simp [podExistAndReadyOnNodeCapacityNum, ListNode, hn]
    · simp only [podExistAndReadyOnNodeCapacityNum, ListNode, ListPod, hn, h,
        if_false, if_true, Bool.false_eq_true, ite_false, ite_true]
      split <;> rfl
  · intro h
    simp [nodeCapacity, GetNode, h]
  · unfold handlePodServer
    split
    · simp
    · split
      · split <;> simp_all [show (Operation.create == Operation.delete) = false from rfl]
      · split
        · split <;> simp
        · simp
  · intro h
    simp [handleTemplateServer, hskip, GetNamespaceLabels, h]

/-- Claim C9 witness: on the cluster where every read fails, the counts are
zero, the capacity is empty, the pod create is still answered without a
rejection, and the template path rejects on the namespace read. -/
theorem C9_witness :
    podExistAndReadyOnNodeCapacityNum clusterAllFail ondemand podP = 0 ∧
    nodeCapacity clusterAllFail "n1" = "" ∧
    handlePodServer NewDefaultSrvApp clusterAllFail .create podP ≠ .reject "any" ∧
    handleTemplateServer NewDefaultSrvApp clusterAllFail objNoLabels =
      some (.reject "get namespace") := by
  have h := C9_read_failures NewDefaultSrvApp clusterAllFail ondemand podP "n1" "any"
    objNoLabels rfl
  exact ⟨h.1 rfl, h.2.2.1 rfl, h.2.2.2.1, h.2.2.2.2 rfl⟩

/-! ## Claim C10 -/

/-- Claim C10: an admission request whose declared kind is none of
Deployment, StatefulSet and Pod is answered with an explicit allowed
verdict and no patch. -/
theorem C10_unknown_kind (app : SrvApp) (c : Cluster) (req : AdmissionRequest)
    (h1 : req.kind ≠ "Deployment") (h2 : req.kind ≠ "StatefulSet") (h3 : req.kind ≠ "Pod") :
    handleMutateServer app c req = some .allowNoPatch := by
  unfold handleMutateServer
  split <;> simp_all

/-- Claim C10 witness: a ConfigMap request is allowed unmodified. -/
theorem C10_witness :
    handleMutateServer NewDefaultSrvApp clusterEmpty reqUnknownKind = some .allowNoPatch :=
  C10_unknown_kind NewDefaultSrvApp clusterEmpty reqUnknownKind
    (by decide) (by decide) (by decide)

end MixScheduler
